import Mathlib

/-!
Shallow embedding of the Trade Decision & Execution Engine of the
AutomatedTrading repository:

* `src/src/trading_logic/trade_simulator.py` (`TradeSimulator`)
* `src/src/financial_analysis/trading_strategies.py` (`TradingStrategies`)

Prices, capital and percentages are embedded as exact rationals (`ℚ`);
Python `int(...)` truncation is embedded as truncation toward zero.
Date strings are embedded as rational timestamps measured in days (the
pandas datetime parsing of `calculate_holding_time` is abstracted to the
numeric difference of those timestamps).  Logging and the JSON
persistence of the positions file (`update_positions_file`) are I/O with
no effect on the in-memory state and are not modelled.  A raised Python
exception is modelled by an explicit error value carrying the state as
it is at the raise point.
-/

namespace AutoTrading

/-- Position direction, the `'long'` / `'short'` strings of the source.
Using an enumeration makes the `ValueError` branches of
`calculate_shares` and `calculate_dynamic_trailing_stop_loss` for an
invalid position-type string unreachable, exactly as they are from
`execute_trade`. -/
inductive PosType where
  | long
  | short
deriving DecidableEq

/-- One entry of the `self.positions` dictionary of `TradeSimulator`:
the value stored by `open_position`. -/
structure Position where
  ptype : PosType
  entry_price : ℚ
  shares : ℤ
  entry_date : ℚ
  max_swing_high : ℚ
  trailing_stop_loss : ℚ
deriving DecidableEq

/-- One entry of `self.trade_history`, as built by `record_trade`. -/
structure TradeRecord where
  action : String
  position_type : PosType
  symbol : String
  price : ℚ
  shares : ℤ
  date : ℚ
  balance_after_trade : ℚ
  holding_time : ℚ
deriving DecidableEq

/-- The mutable state of a `TradeSimulator`: `self.initial_capital`
(the running available capital), `self.positions`, `self.trade_history`
and the constant `self.transaction_cost`. -/
structure SimState where
  capital : ℚ
  positions : List (String × Position)
  trade_history : List TradeRecord
  transaction_cost : ℚ
deriving DecidableEq

/-- Dictionary lookup `self.positions.get(symbol)` /
`symbol in self.positions`. -/
def lookupPos : List (String × Position) → String → Option Position
  | [], _ => none
  | (k, v) :: rest, s => if k = s then some v else lookupPos rest s

/-- Dictionary removal `self.positions.pop(symbol, None)` (the removal
part; the looked-up value is taken with `lookupPos`). -/
def erasePos (l : List (String × Position)) (s : String) : List (String × Position) :=
  l.filter (fun kv => kv.1 ≠ s)

/-- Dictionary update `self.positions[symbol] = {...}`. -/
def insertPos (l : List (String × Position)) (s : String) (p : Position) :
    List (String × Position) :=
  (s, p) :: erasePos l s

/-- Python `int(q)` on a float: truncation toward zero. -/
def truncToInt (q : ℚ) : ℤ :=
  if 0 ≤ q then ⌊q⌋ else ⌈q⌉

/-- `TradeSimulator.calculate_shares`.  `initial_stop_loss` is 5% of
the entry price, `trade_size` risks 1% of the current capital over that
stop, and at least 1 share is always traded.  The position-type
validation of the source is unrepresentable with `PosType`. -/
def calculate_shares (capital price : ℚ) : ℤ :=
  let initial_stop_loss : ℚ := price * 0.05
  let trade_size : ℚ := (0.01 * capital) / initial_stop_loss
  max (truncToInt trade_size) 1

/-- The signed return percentage computed at the top of
`TradeSimulator.calculate_dynamic_trailing_stop_loss` (favorable
direction positive). -/
def return_percentage (position_type : PosType) (current_price entry_price : ℚ) : ℚ :=
  match position_type with
  | .long => ((current_price - entry_price) / entry_price) * 100
  | .short => ((entry_price - current_price) / entry_price) * 100

/-- `TradeSimulator.calculate_dynamic_trailing_stop_loss`: the piecewise
trailing-stop percentage as a function of the signed return. -/
def calculate_dynamic_trailing_stop_loss (current_price entry_price : ℚ)
    (position_type : PosType) : ℚ :=
  let r := return_percentage position_type current_price entry_price
  if r < 5 then 0
  else if 5 ≤ r ∧ r < 10 then 50
  else max (50 - (r - 10)) 10

/-- `TradeSimulator.record_trade`: appends one record to
`self.trade_history`; `balance_after_trade` is the capital at call time,
`holding_time` is `calculate_holding_time(date, entry_date)` when an
entry date is given (timestamps in days, so the difference), else 0. -/
def record_trade (st : SimState) (action : String) (position_type : PosType)
    (symbol : String) (price : ℚ) (shares : ℤ) (date : ℚ)
    (entry_date : Option ℚ) : SimState :=
  let holding_time : ℚ :=
    match entry_date with
    | some e => date - e
    | none => 0
  { st with trade_history := st.trade_history ++
      [{ action := action, position_type := position_type, symbol := symbol,
         price := price, shares := shares, date := date,
         balance_after_trade := st.capital, holding_time := holding_time }] }

/-- Outcome of an `open_position` call.  `insufficientCapital` models
the `logging.warning("Insufficient capital ...")` branch of the source
(the spec's `InsufficientCapitalError` report): the function returns
normally, so the failure is not fatal to the tick. -/
inductive OpenOutcome where
  | opened
  | insufficientCapital
deriving DecidableEq

/-- `TradeSimulator.open_position`.  Shares are sized from the current
capital; if the capital covers `shares * price + transaction_cost` the
cost is debited, the position stored (with `max_swing_high = price` and
the trailing stop computed at zero return) and an OPEN trade recorded;
otherwise nothing is mutated and the insufficient-capital warning is
reported. -/
def open_position (st : SimState) (position_type : PosType) (symbol : String)
    (price : ℚ) (date : ℚ) : SimState × OpenOutcome :=
  let shares : ℤ := calculate_shares st.capital price
  let cost : ℚ := (shares : ℚ) * price + st.transaction_cost
  if st.capital ≥ cost then
    let st1 : SimState :=
      { st with capital := st.capital - cost,
                positions := insertPos st.positions symbol
                  { ptype := position_type, entry_price := price,
                    shares := shares, entry_date := date,
                    max_swing_high := price,
                    trailing_stop_loss :=
                      calculate_dynamic_trailing_stop_loss price price position_type } }
    (record_trade st1 "OPEN" position_type symbol price shares date none,
     OpenOutcome.opened)
  else (st, OpenOutcome.insufficientCapital)

/-- `TradeSimulator.close_position`.  Pops the symbol's position if any,
credits `profit_loss - transaction_cost` (which may be negative) and
records a CLOSE trade; on a flat symbol it only logs a warning. -/
def close_position (st : SimState) (symbol : String) (price : ℚ) (date : ℚ) :
    SimState :=
  match lookupPos st.positions symbol with
  | none => st
  | some position =>
    let st0 : SimState := { st with positions := erasePos st.positions symbol }
    let profit_loss : ℚ :=
      match position.ptype with
      | .long => (price - position.entry_price) * (position.shares : ℚ)
      | .short => (position.entry_price - price) * (position.shares : ℚ)
    let net_profit_loss : ℚ := profit_loss - st.transaction_cost
    let st1 : SimState := { st0 with capital := st0.capital + net_profit_loss }
    record_trade st1 "CLOSE" position.ptype symbol price position.shares date
      (some position.entry_date)

/-- `TradeSimulator.execute_trade`.  The signal is validated first; an
invalid signal raises `ValueError`, modelled as `some message` paired
with the state at the raise point (nothing has been mutated yet).  A
BUY closes an existing short and then unconditionally opens a long; a
SELL closes an existing long and then unconditionally opens a short. -/
def execute_trade (st : SimState) (signal symbol : String) (price : ℚ)
    (date : ℚ) : SimState × Option String :=
  if signal = "BUY" ∨ signal = "SELL" then
    if signal = "BUY" then
      let st1 : SimState :=
        match lookupPos st.positions symbol with
        | some position =>
          if position.ptype = PosType.short then close_position st symbol price date
          else st
        | none => st
      ((open_position st1 PosType.long symbol price date).1, none)
    else
      let st1 : SimState :=
        match lookupPos st.positions symbol with
        | some position =>
          if position.ptype = PosType.long then close_position st symbol price date
          else st
        | none => st
      ((open_position st1 PosType.short symbol price date).1, none)
  else
    (st, some ("Invalid trade signal " ++ signal ++ ". Must be BUY or SELL."))

/-- `TradeSimulator.check_trailing_stop_loss`.  Recomputes the dynamic
stop from the current price, ratchets `max_swing_high` (up for long,
down for short), and closes the position when the trigger comparison
against `max_swing_high` scaled by the stop percentage holds. -/
def check_trailing_stop_loss (st : SimState) (symbol : String) (current_price : ℚ)
    (date : ℚ) : SimState :=
  match lookupPos st.positions symbol with
  | none => st
  | some position =>
    let updated_trailing_stop_loss : ℚ :=
      calculate_dynamic_trailing_stop_loss current_price position.entry_price
        position.ptype
    match position.ptype with
    | .long =>
      let pos1 : Position :=
        if current_price > position.max_swing_high then
          { position with max_swing_high := current_price }
        else position
      let st1 : SimState := { st with positions := insertPos st.positions symbol pos1 }
      if current_price ≤ pos1.max_swing_high * (1 - updated_trailing_stop_loss / 100) then
        close_position st1 symbol current_price date
      else st1
    | .short =>
      let pos1 : Position :=
        if current_price < position.max_swing_high then
          { position with max_swing_high := current_price }
        else position
      let st1 : SimState := { st with positions := insertPos st.positions symbol pos1 }
      if current_price ≥ pos1.max_swing_high * (1 + updated_trailing_stop_loss / 100) then
        close_position st1 symbol current_price date
      else st1

/-- A sequence of trailing-stop checks for one symbol, one call of
`check_trailing_stop_loss` per `(price, date)` tick. -/
def check_ticks (st : SimState) (symbol : String) : List (ℚ × ℚ) → SimState
  | [] => st
  | (price, date) :: rest =>
    check_ticks (check_trailing_stop_loss st symbol price date) symbol rest

/-!
Embedding of `TradingStrategies`
(`src/src/financial_analysis/trading_strategies.py`).  A pandas series
is embedded as a `List ℚ`; `iloc[-1]` is the last element and `.mean()`
the arithmetic mean (the strategies are considered on nonempty present
series — on an empty series pandas raises `IndexError`, which no claim
concerns).  A missing dictionary key raises `KeyError`, embedded as
`Except.error`; an indicator family is therefore an `Option` field of
the snapshot (the source always builds all inner keys of a family
together, so presence is modelled per family).
-/

/-- The `'bollinger'` indicator family. -/
structure BollingerInd where
  lowerband : List ℚ
  middleband : List ℚ
  upperband : List ℚ
deriving DecidableEq

/-- The `'macd'` indicator family. -/
structure MacdInd where
  macd : List ℚ
  macd_signal : List ℚ
  hist : List ℚ
deriving DecidableEq

/-- The `'ema'` indicator family. -/
structure EmaInd where
  ema_short : List ℚ
  ema_long : List ℚ
deriving DecidableEq

/-- The `'fibonacci'` indicator family: a price and retracement levels. -/
structure FibonacciInd where
  price : ℚ
  levels : List ℚ
deriving DecidableEq

/-- The per-symbol indicator dictionary consumed by the strategies:
`none` means the key is absent (access raises `KeyError`). -/
structure Snapshot where
  bollinger : Option BollingerInd
  rsi : Option (List ℚ)
  volume : Option (List ℚ)
  macd : Option MacdInd
  stochastic_k : Option (List ℚ)
  adx : Option (List ℚ)
  ema : Option EmaInd
  atr : Option (List ℚ)
  obv : Option (List ℚ)
  sar : Option (List ℚ)
  vwap : Option (List ℚ)
  fibonacci : Option FibonacciInd
  ichimoku_above : Option Bool
  cci : Option (List ℚ)
deriving DecidableEq

/-- Dictionary access `indicators[key]`: `KeyError` on an absent key. -/
def getInd {α : Type} (o : Option α) (key : String) : Except String α :=
  match o with
  | some v => Except.ok v
  | none => Except.error ("KeyError: " ++ key)

/-- `series.iloc[-1]`: the latest value of a (nonempty) series. -/
def seriesLast (s : List ℚ) : ℚ := s.getLastD 0

/-- `series.mean()`: the arithmetic mean of a (nonempty) series. -/
def seriesMean (s : List ℚ) : ℚ := s.sum / (s.length : ℚ)

/-- `TradingStrategies.bollinger_rsi_volume_strategy`.  Note the source
uses the middle band as the current price `cp`. -/
def bollinger_rsi_volume_strategy (indicators : Snapshot) : Except String String := do
  let boll ← getInd indicators.bollinger "bollinger"
  let lower_band := boll.lowerband
  let mid_band := boll.middleband
  let cp := mid_band
  let crsi ← getInd indicators.rsi "rsi"
  let cvol ← getInd indicators.volume "volume"
  let average_volume := seriesMean cvol
  let latest_cp := seriesLast cp
  let latest_crsi := seriesLast crsi
  let latest_cvol := seriesLast cvol
  let latest_lower_band := seriesLast lower_band
  let latest_upper_band := seriesLast boll.upperband
  if latest_cp ≤ latest_lower_band ∧ latest_crsi < 30 ∧ latest_cvol > average_volume then
    pure "BUY"
  else if latest_cp ≥ latest_upper_band ∧ latest_crsi > 70 then
    pure "SELL"
  else
    pure "HOLD"

/-- `TradingStrategies.macd_stochastic_adx_strategy`. -/
def macd_stochastic_adx_strategy (indicators : Snapshot) : Except String String := do
  let m ← getInd indicators.macd "macd"
  let sk ← getInd indicators.stochastic_k "stochastic"
  let adx_val ← getInd indicators.adx "adx"
  let latest_m_val := seriesLast m.macd
  let latest_m_sig := seriesLast m.macd_signal
  let latest_sk := seriesLast sk
  let latest_adx := seriesLast adx_val
  if latest_m_val > latest_m_sig ∧ latest_sk > 20 ∧ latest_adx > 25 then
    pure "BUY"
  else if latest_m_val < latest_m_sig ∧ latest_sk < 80 then
    pure "SELL"
  else
    pure "HOLD"

/-- `TradingStrategies.ema_atr_obv_strategy`. -/
def ema_atr_obv_strategy (indicators : Snapshot) : Except String String := do
  let e ← getInd indicators.ema "ema"
  let atr ← getInd indicators.atr "atr"
  let obv ← getInd indicators.obv "obv"
  let average_atr := seriesMean atr
  let average_obv := seriesMean obv
  let latest_ema_short := seriesLast e.ema_short
  let latest_ema_long := seriesLast e.ema_long
  let latest_atr := seriesLast atr
  let latest_obv := seriesLast obv
  if latest_ema_short > latest_ema_long ∧ latest_atr > average_atr ∧ latest_obv > average_obv then
    pure "BUY"
  else if latest_ema_short < latest_ema_long then
    pure "SELL"
  else
    pure "HOLD"

/-- `TradingStrategies.sar_vwap_rsi_strategy`. -/
def sar_vwap_rsi_strategy (indicators : Snapshot) : Except String String := do
  let cp ← getInd indicators.sar "sar"
  let vwap ← getInd indicators.vwap "vwap"
  let rsi ← getInd indicators.rsi "rsi"
  let latest_cp := seriesLast cp
  let latest_vwap := seriesLast vwap
  let latest_rsi := seriesLast rsi
  if latest_cp > latest_vwap ∧ 50 < latest_rsi ∧ latest_rsi < 70 then
    pure "BUY"
  else if latest_cp < latest_vwap then
    pure "SELL"
  else
    pure "HOLD"

/-- The level loop of
`TradingStrategies.fibonacci_ichimoku_cci_strategy`: the first level
satisfying the BUY or the SELL condition wins; when a level satisfies
neither, the loop continues. -/
def fibonacci_level_loop (cp : ℚ) (above_cloud : Bool) (cci_val : ℚ) :
    List ℚ → String
  | [] => "HOLD"
  | level :: rest =>
    if cp ≥ level ∧ above_cloud = true ∧ cci_val > -100 then "BUY"
    else if cp < level then "SELL"
    else fibonacci_level_loop cp above_cloud cci_val rest

/-- `TradingStrategies.fibonacci_ichimoku_cci_strategy`. -/
def fibonacci_ichimoku_cci_strategy (indicators : Snapshot) : Except String String := do
  let fib ← getInd indicators.fibonacci "fibonacci"
  let above ← getInd indicators.ichimoku_above "ichimoku"
  let cci_series ← getInd indicators.cci "cci"
  let cci_val := seriesLast cci_series
  pure (fibonacci_level_loop fib.price above cci_val fib.levels)

/-- The number of votes for one category: the `vote_count[decision] += 1`
accumulation of `majority_voting_strategy` restricted to `category`. -/
def countVotes (decision_dict : List (String × String)) (category : String) : ℕ :=
  (decision_dict.filter (fun kv => kv.2 = category)).length

/-- `TradingStrategies.majority_voting_strategy`.  Decisions outside
BUY/SELL/HOLD are not counted.  The outcome loop runs in the insertion
order BUY, SELL, HOLD of `vote_count` and returns the first category
whose share of the total reaches 0.6; with at most 5 votes the Python
float comparison `count / total_votes >= 0.6` agrees with the exact
rational comparison used here. -/
def majority_voting_strategy (decision_dict : List (String × String)) : String :=
  let buy := countVotes decision_dict "BUY"
  let sell := countVotes decision_dict "SELL"
  let hold := countVotes decision_dict "HOLD"
  let total_votes := buy + sell + hold
  if 0 < total_votes ∧ (buy : ℚ) / (total_votes : ℚ) ≥ 0.6 then "BUY"
  else if 0 < total_votes ∧ (sell : ℚ) / (total_votes : ℚ) ≥ 0.6 then "SELL"
  else if 0 < total_votes ∧ (hold : ℚ) / (total_votes : ℚ) ≥ 0.6 then "HOLD"
  else "NONE"

/-- The per-symbol body of
`TradingStrategies.execute_technical_strategy`: the five rule decisions
(any `KeyError` propagates — there is no handler) followed by the
majority vote over them. -/
def evaluate_symbol (indicators : Snapshot) : Except String (List (String × String)) := do
  let d1 ← bollinger_rsi_volume_strategy indicators
  let d2 ← macd_stochastic_adx_strategy indicators
  let d3 ← ema_atr_obv_strategy indicators
  let d4 ← sar_vwap_rsi_strategy indicators
  let d5 ← fibonacci_ichimoku_cci_strategy indicators
  let decision := [("Bollinger_RSI_Volume", d1), ("MACD_Stochastic_ADX", d2),
                   ("EMA_ATR_OBV", d3), ("SAR_VWAP_RSI", d4),
                   ("Fibonacci_Ichimoku_CCI", d5)]
  pure (decision ++ [("Majority_Vote_Strategy", majority_voting_strategy decision)])

/-- `Except.error` recogniser: did the computation raise? -/
def isError {ε α : Type} : Except ε α → Bool
  | .error _ => true
  | .ok _ => false

/-- The trailing-stop law as §4.3 of the design words it: a function of
the signed return percentage alone, to be compared with
`calculate_dynamic_trailing_stop_loss`. -/
def spec_stop_pct_of_return (r : ℚ) : ℚ :=
  if r < 5 then 0 else if r < 10 then 50 else max (50 - (r - 10)) 10

/-!  Helper lemmas shared by the claim theorems. -/

lemma long_ne_short : PosType.long ≠ PosType.short := fun h => nomatch h

lemma short_ne_long : PosType.short ≠ PosType.long := fun h => nomatch h

lemma record_trade_capital (st : SimState) (a : String) (pt : PosType) (s : String)
    (p : ℚ) (sh : ℤ) (d : ℚ) (e : Option ℚ) :
    (record_trade st a pt s p sh d e).capital = st.capital := rfl

lemma record_trade_positions (st : SimState) (a : String) (pt : PosType) (s : String)
    (p : ℚ) (sh : ℤ) (d : ℚ) (e : Option ℚ) :
    (record_trade st a pt s p sh d e).positions = st.positions := rfl

lemma record_trade_tc (st : SimState) (a : String) (pt : PosType) (s : String)
    (p : ℚ) (sh : ℤ) (d : ℚ) (e : Option ℚ) :
    (record_trade st a pt s p sh d e).transaction_cost = st.transaction_cost := rfl

lemma lookupPos_insertPos_self (l : List (String × Position)) (s : String) (p : Position) :
    lookupPos (insertPos l s p) s = some p := by
  simp [insertPos, lookupPos]

lemma lookupPos_erasePos_self (l : List (String × Position)) (s : String) :
    lookupPos (erasePos l s) s = none := by
  induction l with
  | nil => rfl
  | cons kv rest ih =>
    by_cases h : kv.1 = s
    · simpa [erasePos, h] using ih
    · simpa [erasePos, lookupPos, h] using ih

lemma close_position_positions {st : SimState} {symbol : String} {price date : ℚ}
    {pos : Position} (h : lookupPos st.positions symbol = some pos) :
    (close_position st symbol price date).positions = erasePos st.positions symbol := by
  simp [close_position, h, record_trade]

lemma close_position_capital {st : SimState} {symbol : String} {price date : ℚ}
    {pos : Position} (h : lookupPos st.positions symbol = some pos) :
    (close_position st symbol price date).capital =
      st.capital +
        ((match pos.ptype with
          | PosType.long => (price - pos.entry_price) * (pos.shares : ℚ)
          | PosType.short => (pos.entry_price - price) * (pos.shares : ℚ)) -
          st.transaction_cost) := by
  cases hp : pos.ptype <;> simp [close_position, h, hp, record_trade]

/-- C6: for every direction, entry price > 0 and current price, the
dynamic trailing-stop percentage is exactly the spec's piecewise
function of the signed return percentage, and takes the values 0, 50,
45, 15 and 10 at returns 3, 7, 15, 45 and 60. -/
theorem trailing_stop_piecewise_law (position_type : PosType)
    (entry_price current_price : ℚ) (h : 0 < entry_price) :
    calculate_dynamic_trailing_stop_loss current_price entry_price position_type
      = spec_stop_pct_of_return
          (return_percentage position_type current_price entry_price)
    ∧ calculate_dynamic_trailing_stop_loss 103 100 PosType.long = 0
    ∧ calculate_dynamic_trailing_stop_loss 107 100 PosType.long = 50
    ∧ calculate_dynamic_trailing_stop_loss 115 100 PosType.long = 45
    ∧ calculate_dynamic_trailing_stop_loss 145 100 PosType.long = 15
    ∧ calculate_dynamic_trailing_stop_loss 160 100 PosType.long = 10 := by
  refine ⟨?_, ?_, ?_, ?_, ?_, ?_⟩
  · unfold calculate_dynamic_trailing_stop_loss spec_stop_pct_of_return
    set r := return_percentage position_type current_price entry_price with hr
    by_cases h1 : r < 5
    · simp [h1]
    · by_cases h2 : r < 10
      · simp [h1, h2, le_of_not_lt h1]
      · simp [h1, h2]
  all_goals norm_num [calculate_dynamic_trailing_stop_loss, return_percentage]

/-- Closed instance of `trailing_stop_piecewise_law` at entry price 100
and current price 115 (return 15, stop 45). -/
theorem trailing_stop_piecewise_law_witness :
    (0 : ℚ) < 100 ∧
    (calculate_dynamic_trailing_stop_loss 115 100 PosType.long
        = spec_stop_pct_of_return (return_percentage PosType.long 115 100)
      ∧ calculate_dynamic_trailing_stop_loss 103 100 PosType.long = 0
      ∧ calculate_dynamic_trailing_stop_loss 107 100 PosType.long = 50
      ∧ calculate_dynamic_trailing_stop_loss 115 100 PosType.long = 45
      ∧ calculate_dynamic_trailing_stop_loss 145 100 PosType.long = 15
      ∧ calculate_dynamic_trailing_stop_loss 160 100 PosType.long = 10) :=
  ⟨by norm_num, trailing_stop_piecewise_law PosType.long 100 115 (by norm_num)⟩

/-- C3 (amended): a committed or refused open never drives a
non-negative capital negative — the open is guarded by
`capital ≥ cost`.  (A close, by contrast, credits
`profit_loss - transaction_cost` unconditionally and can leave the
capital negative; see `close_can_make_capital_negative`.) -/
theorem open_keeps_capital_nonneg (st : SimState) (position_type : PosType)
    (symbol : String) (price date : ℚ) (h : 0 ≤ st.capital) :
    0 ≤ (open_position st position_type symbol price date).1.capital := by
  simp only [open_position]
  split_ifs with hc
  · simp only [record_trade_capital]
    linarith [hc]
  · simpa using h

/-- Closed instance of `open_keeps_capital_nonneg`. -/
theorem open_keeps_capital_nonneg_witness :
    (0 : ℚ) ≤ (⟨10000, [], [], 20⟩ : SimState).capital ∧
    0 ≤ (open_position ⟨10000, [], [], 20⟩ PosType.long "AAPL" 100 0).1.capital :=
  ⟨by norm_num,
   open_keeps_capital_nonneg ⟨10000, [], [], 20⟩ PosType.long "AAPL" 100 0 (by norm_num)⟩

/-- C3 (counterexample): starting from non-negative capital 120, a
committed open (cost 120) followed by a committed close of the same
long position at price 1 leaves the capital at -119 < 0, so the capital
invariant fails after a committed close. -/
theorem close_can_make_capital_negative :
    (0 : ℚ) ≤ (⟨120, [], [], 20⟩ : SimState).capital ∧
    (open_position ⟨120, [], [], 20⟩ PosType.long "A" 100 0).2 = OpenOutcome.opened ∧
    (close_position (open_position ⟨120, [], [], 20⟩ PosType.long "A" 100 0).1
        "A" 1 1).capital = -119 ∧
    ((-119 : ℚ) < 0) := by
  refine ⟨by norm_num, ?_, ?_, by norm_num⟩ <;>
    norm_num [open_position, close_position, calculate_shares, truncToInt, record_trade,
      lookupPos, insertPos, erasePos, calculate_dynamic_trailing_stop_loss,
      return_percentage]

/-- C4: an open whose cost `shares * price + transaction_cost` exceeds
the available capital returns with the insufficient-capital report and
the state completely unchanged (capital, positions and trade history);
no exception is raised, so the tick continues. -/
theorem insufficient_capital_open_no_mutation (st : SimState)
    (position_type : PosType) (symbol : String) (price date : ℚ)
    (h : st.capital < (calculate_shares st.capital price : ℚ) * price + st.transaction_cost) :
    open_position st position_type symbol price date
      = (st, OpenOutcome.insufficientCapital) := by
  simp only [open_position]
  split_ifs with hc
  · exact absurd hc (not_le.mpr h)
  · rfl

/-- Closed instance of `insufficient_capital_open_no_mutation`: capital
50 cannot cover the cost 120 of one share at price 100 plus the
transaction cost. -/
theorem insufficient_capital_open_no_mutation_witness :
    ((⟨50, [], [], 20⟩ : SimState).capital
        < (calculate_shares (⟨50, [], [], 20⟩ : SimState).capital 100 : ℚ) * 100 +
          (⟨50, [], [], 20⟩ : SimState).transaction_cost) ∧
    open_position ⟨50, [], [], 20⟩ PosType.long "AAPL" 100 0
      = (⟨50, [], [], 20⟩, OpenOutcome.insufficientCapital) :=
  ⟨by norm_num [calculate_shares, truncToInt],
   insufficient_capital_open_no_mutation ⟨50, [], [], 20⟩ PosType.long "AAPL" 100 0
     (by norm_num [calculate_shares, truncToInt])⟩

/-- C10: any signal other than BUY or SELL — in particular NONE and
HOLD — makes `execute_trade` raise `ValueError` with the state exactly
as it was (the validation precedes every mutation). -/
theorem invalid_signal_rejected_before_mutation (st : SimState)
    (signal symbol : String) (price date : ℚ)
    (h1 : signal ≠ "BUY") (h2 : signal ≠ "SELL") :
    execute_trade st signal symbol price date
      = (st, some ("Invalid trade signal " ++ signal ++ ". Must be BUY or SELL.")) := by
  simp [execute_trade, h1, h2]

/-- Closed instance of `invalid_signal_rejected_before_mutation` at the
signal HOLD. -/
theorem invalid_signal_rejected_before_mutation_witness :
    ("HOLD" ≠ "BUY") ∧ ("HOLD" ≠ "SELL") ∧
    execute_trade ⟨1000, [], [], 20⟩ "HOLD" "AAPL" 100 1
      = (⟨1000, [], [], 20⟩, some "Invalid trade signal HOLD. Must be BUY or SELL.") :=
  ⟨by decide, by decide,
   invalid_signal_rejected_before_mutation ⟨1000, [], [], 20⟩ "HOLD" "AAPL" 100 1
     (by decide) (by decide)⟩

/-- C2 (code bug): on the vote mapping in which all five rules vote
HOLD, `majority_voting_strategy` returns HOLD — not NONE as its own
docstring ("Otherwise, return NONE") and the spec state — so the
returned signal is not always in BUY/SELL/NONE. -/
theorem hold_majority_returns_hold :
    majority_voting_strategy
        [("Bollinger_RSI_Volume", "HOLD"), ("MACD_Stochastic_ADX", "HOLD"),
         ("EMA_ATR_OBV", "HOLD"), ("SAR_VWAP_RSI", "HOLD"),
         ("Fibonacci_Ichimoku_CCI", "HOLD")] = "HOLD" ∧
    ("HOLD" ≠ "NONE") ∧ ("HOLD" ≠ "BUY") ∧ ("HOLD" ≠ "SELL") := by
  refine ⟨?_, by decide, by decide, by decide⟩
  have hb : countVotes
      [("Bollinger_RSI_Volume", "HOLD"), ("MACD_Stochastic_ADX", "HOLD"),
       ("EMA_ATR_OBV", "HOLD"), ("SAR_VWAP_RSI", "HOLD"),
       ("Fibonacci_Ichimoku_CCI", "HOLD")] "BUY" = 0 := rfl
  have hs : countVotes
      [("Bollinger_RSI_Volume", "HOLD"), ("MACD_Stochastic_ADX", "HOLD"),
       ("EMA_ATR_OBV", "HOLD"), ("SAR_VWAP_RSI", "HOLD"),
       ("Fibonacci_Ichimoku_CCI", "HOLD")] "SELL" = 0 := rfl
  have hh : countVotes
      [("Bollinger_RSI_Volume", "HOLD"), ("MACD_Stochastic_ADX", "HOLD"),
       ("EMA_ATR_OBV", "HOLD"), ("SAR_VWAP_RSI", "HOLD"),
       ("Fibonacci_Ichimoku_CCI", "HOLD")] "HOLD" = 5 := rfl
  norm_num [majority_voting_strategy, hb, hs, hh]

-- A committed open debits exactly the cost and stores the new position
-- under the symbol; transaction cost is untouched.
lemma open_position_committed (st : SimState) (position_type : PosType)
    (symbol : String) (price date : ℚ)
    (h : st.capital ≥ (calculate_shares st.capital price : ℚ) * price + st.transaction_cost) :
    (open_position st position_type symbol price date).1.capital
        = st.capital - ((calculate_shares st.capital price : ℚ) * price + st.transaction_cost) ∧
    (open_position st position_type symbol price date).1.transaction_cost
        = st.transaction_cost ∧
    lookupPos (open_position st position_type symbol price date).1.positions symbol
        = some { ptype := position_type, entry_price := price,
                 shares := calculate_shares st.capital price, entry_date := date,
                 max_swing_high := price,
                 trailing_stop_loss :=
                   calculate_dynamic_trailing_stop_loss price price position_type } := by
  simp only [open_position]
  rw [if_pos h]
  refine ⟨rfl, rfl, ?_⟩
  rw [record_trade_positions]
  exact lookupPos_insertPos_self _ _ _

/-- C5: for a committed open of `shares = calculate_shares capital p`
at price `p` followed by a close of the same symbol at price `q`, the
capital after the close equals the capital before the open minus the
open cost plus the close net `profit_loss - transaction_cost`, exactly,
with the direction-dependent `profit_loss`. -/
theorem open_close_capital_identity (st : SimState) (position_type : PosType)
    (symbol : String) (p q d d2 : ℚ)
    (h : (calculate_shares st.capital p : ℚ) * p + st.transaction_cost ≤ st.capital) :
    (close_position (open_position st position_type symbol p d).1 symbol q d2).capital
      = st.capital - ((calculate_shares st.capital p : ℚ) * p + st.transaction_cost)
        + ((match position_type with
            | PosType.long => (q - p) * (calculate_shares st.capital p : ℚ)
            | PosType.short => (p - q) * (calculate_shares st.capital p : ℚ))
           - st.transaction_cost) := by
  obtain ⟨hcap, htc, hlook⟩ := open_position_committed st position_type symbol p d h
  rw [close_position_capital hlook, hcap, htc]

/-- Closed instance of `open_close_capital_identity`: open long at 100
from capital 10000 (20 shares, cost 2020), close at 110. -/
theorem open_close_capital_identity_witness :
    ((calculate_shares (10000 : ℚ) 100 : ℚ) * 100 + (20 : ℚ) ≤ 10000) ∧
    (close_position (open_position ⟨10000, [], [], 20⟩ PosType.long "AAPL" 100 0).1
        "AAPL" 110 1).capital
      = (10000 : ℚ) - ((calculate_shares (10000 : ℚ) 100 : ℚ) * 100 + 20)
        + ((match PosType.long with
            | PosType.long => ((110 : ℚ) - 100) * (calculate_shares (10000 : ℚ) 100 : ℚ)
            | PosType.short => ((100 : ℚ) - 110) * (calculate_shares (10000 : ℚ) 100 : ℚ))
           - 20) :=
  ⟨by norm_num [calculate_shares, truncToInt],
   open_close_capital_identity ⟨10000, [], [], 20⟩ PosType.long "AAPL" 100 110 0 1
     (by norm_num [calculate_shares, truncToInt])⟩

/-- C1 (amended): a BUY for a symbol already LONG (and a SELL for a
symbol already SHORT) does not close anything and is not a no-op: it
unconditionally attempts a same-direction re-open on the unchanged
state, so if the capital covers the cost it debits the capital again,
overwrites the position and records a new OPEN trade (and only an
insufficient-capital refusal leaves the state unchanged). -/
theorem same_direction_signal_reopens (st : SimState) (symbol : String)
    (price date : ℚ) (pos : Position)
    (h : lookupPos st.positions symbol = some pos) :
    (pos.ptype = PosType.long →
      execute_trade st "BUY" symbol price date
        = ((open_position st PosType.long symbol price date).1, none)) ∧
    (pos.ptype = PosType.short →
      execute_trade st "SELL" symbol price date
        = ((open_position st PosType.short symbol price date).1, none)) := by
  constructor <;> intro hp <;>
    simp [execute_trade, h, hp, long_ne_short, short_ne_long]

/-- Closed instance of `same_direction_signal_reopens`. -/
theorem same_direction_signal_reopens_witness :
    lookupPos ((⟨10000, [("AAPL", ⟨PosType.long, 90, 5, 0, 95, 0⟩)], [], 20⟩ :
        SimState).positions) "AAPL" = some ⟨PosType.long, 90, 5, 0, 95, 0⟩ ∧
    ((PosType.long = PosType.long →
      execute_trade ⟨10000, [("AAPL", ⟨PosType.long, 90, 5, 0, 95, 0⟩)], [], 20⟩
          "BUY" "AAPL" 100 1
        = ((open_position ⟨10000, [("AAPL", ⟨PosType.long, 90, 5, 0, 95, 0⟩)], [], 20⟩
            PosType.long "AAPL" 100 1).1, none)) ∧
     (PosType.long = PosType.short →
      execute_trade ⟨10000, [("AAPL", ⟨PosType.long, 90, 5, 0, 95, 0⟩)], [], 20⟩
          "SELL" "AAPL" 100 1
        = ((open_position ⟨10000, [("AAPL", ⟨PosType.long, 90, 5, 0, 95, 0⟩)], [], 20⟩
            PosType.short "AAPL" 100 1).1, none))) :=
  ⟨by simp [lookupPos],
   same_direction_signal_reopens
     ⟨10000, [("AAPL", ⟨PosType.long, 90, 5, 0, 95, 0⟩)], [], 20⟩ "AAPL" 100 1
     ⟨PosType.long, 90, 5, 0, 95, 0⟩ (by simp [lookupPos])⟩

/-- C1 (counterexample): with capital 10000 and an existing LONG
position on AAPL (entry 90), processing a BUY at price 100 is not a
no-op: the capital drops from 10000 to 7980, the trade history gains an
OPEN record, and the stored position is replaced by a fresh LONG entry
at 100 with 20 shares. -/
theorem buy_while_long_not_noop :
    (execute_trade ⟨10000, [("AAPL", ⟨PosType.long, 90, 5, 0, 95, 0⟩)], [], 20⟩
        "BUY" "AAPL" 100 1).1.capital = 7980 ∧
    (⟨10000, [("AAPL", ⟨PosType.long, 90, 5, 0, 95, 0⟩)], [], 20⟩ : SimState).capital
      = 10000 ∧
    (execute_trade ⟨10000, [("AAPL", ⟨PosType.long, 90, 5, 0, 95, 0⟩)], [], 20⟩
        "BUY" "AAPL" 100 1).1.trade_history.length = 1 ∧
    List.length ((⟨10000, [("AAPL", ⟨PosType.long, 90, 5, 0, 95, 0⟩)], [], 20⟩ :
        SimState).trade_history) = 0 ∧
    lookupPos (execute_trade ⟨10000, [("AAPL", ⟨PosType.long, 90, 5, 0, 95, 0⟩)], [], 20⟩
        "BUY" "AAPL" 100 1).1.positions "AAPL"
      = some ⟨PosType.long, 100, 20, 1, 100, 0⟩ := by
  refine ⟨?_, by norm_num, ?_, by norm_num, ?_⟩ <;>
    norm_num [execute_trade, open_position, calculate_shares, truncToInt, record_trade,
      lookupPos, insertPos, erasePos, calculate_dynamic_trailing_stop_loss,
      return_percentage, long_ne_short, short_ne_long]

-- Closing a position that was just stored under `symbol` always erases
-- the symbol from the position set.
lemma close_after_insert_none (st : SimState) (symbol : String) (P : Position)
    (price date : ℚ) :
    lookupPos (close_position { st with positions := insertPos st.positions symbol P }
        symbol price date).positions symbol = none := by
  have h : lookupPos (insertPos st.positions symbol P) symbol = some P :=
    lookupPos_insertPos_self _ _ _
  rw [close_position_positions h]
  exact lookupPos_erasePos_self _ _

/-- C9: whenever the recomputed return of an open position is below 5
(so the recomputed trailing-stop percentage is 0), a single
`check_trailing_stop_loss` call always closes the position: after the
ratchet the extreme price is on the unfavorable side of the current
price, and a 0-percent stop makes the trigger comparison hold. -/
theorem zero_stop_check_always_closes (st : SimState) (symbol : String)
    (price date : ℚ) (pos : Position)
    (h : lookupPos st.positions symbol = some pos)
    (hret : return_percentage pos.ptype price pos.entry_price < 5) :
    lookupPos (check_trailing_stop_loss st symbol price date).positions symbol = none := by
  have hstop : calculate_dynamic_trailing_stop_loss price pos.entry_price pos.ptype = 0 := by
    simp only [calculate_dynamic_trailing_stop_loss]
    rw [if_pos hret]
  cases hp : pos.ptype with
  | long =>
    rw [hp] at hstop
    have h1 : price ≤ (if price > pos.max_swing_high then
        { pos with ptype := PosType.long, max_swing_high := price }
      else pos).max_swing_high := by
      by_cases hc : price > pos.max_swing_high
      · simp [hc]
      · simp [hc, le_of_not_lt hc]
    simp only [check_trailing_stop_loss, h, hp, hstop]
    rw [if_pos (by rw [show (1 : ℚ) - 0 / 100 = 1 by norm_num, mul_one]; exact h1)]
    exact close_after_insert_none st symbol _ price date
  | short =>
    rw [hp] at hstop
    have h1 : (if price < pos.max_swing_high then
        { pos with ptype := PosType.short, max_swing_high := price }
      else pos).max_swing_high ≤ price := by
      by_cases hc : price < pos.max_swing_high
      · simp [hc]
      · simp [hc, le_of_not_lt hc]
    simp only [check_trailing_stop_loss, h, hp, hstop]
    rw [if_pos (by rw [show (1 : ℚ) + 0 / 100 = 1 by norm_num, mul_one]; exact h1)]
    exact close_after_insert_none st symbol _ price date

/-- Closed instance of `zero_stop_check_always_closes`: a long position
entered at 100 checked at price 103 (return 3 percent) is closed. -/
theorem zero_stop_check_always_closes_witness :
    lookupPos ((⟨0, [("A", ⟨PosType.long, 100, 1, 0, 100, 0⟩)], [], 20⟩ :
        SimState).positions) "A" = some ⟨PosType.long, 100, 1, 0, 100, 0⟩ ∧
    return_percentage (⟨PosType.long, 100, 1, 0, 100, 0⟩ : Position).ptype 103
        (⟨PosType.long, 100, 1, 0, 100, 0⟩ : Position).entry_price < 5 ∧
    lookupPos (check_trailing_stop_loss
        ⟨0, [("A", ⟨PosType.long, 100, 1, 0, 100, 0⟩)], [], 20⟩ "A" 103 1).positions "A"
      = none :=
  ⟨by simp [lookupPos], by norm_num [return_percentage],
   zero_stop_check_always_closes
     ⟨0, [("A", ⟨PosType.long, 100, 1, 0, 100, 0⟩)], [], 20⟩ "A" 103 1
     ⟨PosType.long, 100, 1, 0, 100, 0⟩ (by simp [lookupPos])
     (by norm_num [return_percentage])⟩

-- One trailing-stop check preserves the direction of a surviving
-- position and only ratchets its extreme price favorably.
lemma check_step_survivor {st : SimState} {symbol : String} {price date : ℚ}
    {pos pos' : Position}
    (h : lookupPos st.positions symbol = some pos)
    (h' : lookupPos (check_trailing_stop_loss st symbol price date).positions symbol
        = some pos') :
    pos'.ptype = pos.ptype ∧
    (pos.ptype = PosType.long → pos.max_swing_high ≤ pos'.max_swing_high) ∧
    (pos.ptype = PosType.short → pos'.max_swing_high ≤ pos.max_swing_high) := by
  cases hp : pos.ptype with
  | long =>
    simp only [check_trailing_stop_loss, h, hp] at h'
    by_cases hc : price > pos.max_swing_high
    · rw [if_pos hc] at h'
      split_ifs at h' with htr
      · rw [close_after_insert_none] at h'
        exact absurd h' (by simp)
      · dsimp only at h'
        rw [lookupPos_insertPos_self] at h'
        obtain rfl := (Option.some.injEq _ _).mp h'.symm
        exact ⟨rfl, fun _ => le_of_lt hc, fun hs => absurd hs long_ne_short⟩
    · rw [if_neg hc] at h'
      split_ifs at h' with htr
      · rw [close_after_insert_none] at h'
        exact absurd h' (by simp)
      · dsimp only at h'
        rw [lookupPos_insertPos_self] at h'
        obtain rfl := (Option.some.injEq _ _).mp h'.symm
        exact ⟨hp, fun _ => le_refl _, fun _ => le_refl _⟩
  | short =>
    simp only [check_trailing_stop_loss, h, hp] at h'
    by_cases hc : price < pos.max_swing_high
    · rw [if_pos hc] at h'
      split_ifs at h' with htr
      · rw [close_after_insert_none] at h'
        exact absurd h' (by simp)
      · dsimp only at h'
        rw [lookupPos_insertPos_self] at h'
        obtain rfl := (Option.some.injEq _ _).mp h'.symm
        exact ⟨rfl, fun hl => absurd hl short_ne_long, fun _ => le_of_lt hc⟩
    · rw [if_neg hc] at h'
      split_ifs at h' with htr
      · rw [close_after_insert_none] at h'
        exact absurd h' (by simp)
      · dsimp only at h'
        rw [lookupPos_insertPos_self] at h'
        obtain rfl := (Option.some.injEq _ _).mp h'.symm
        exact ⟨hp, fun _ => le_refl _, fun _ => le_refl _⟩

-- A symbol with no open position stays flat across any sequence of
-- trailing-stop checks.
lemma check_ticks_flat {symbol : String} :
    ∀ (ticks : List (ℚ × ℚ)) (st : SimState),
      lookupPos st.positions symbol = none →
      lookupPos (check_ticks st symbol ticks).positions symbol = none
  | [], _, h => h
  | (p, d) :: rest, st, h => by
    have hstep : check_trailing_stop_loss st symbol p d = st := by
      simp [check_trailing_stop_loss, h]
    show lookupPos
        ((check_ticks (check_trailing_stop_loss st symbol p d) symbol rest).positions)
        symbol = none
    rw [hstep]
    exact check_ticks_flat rest st h

/-- C7: across every sequence of trailing-stop checks on one open
position, the recorded extreme price `max_swing_high` is non-decreasing
for a LONG position and non-increasing for a SHORT position (and the
direction never changes): it never moves unfavorably once set. -/
theorem extreme_price_ratchet (ticks : List (ℚ × ℚ)) (st : SimState) (symbol : String)
    (pos pos' : Position)
    (h : lookupPos st.positions symbol = some pos)
    (h' : lookupPos (check_ticks st symbol ticks).positions symbol = some pos') :
    pos'.ptype = pos.ptype ∧
    (pos.ptype = PosType.long → pos.max_swing_high ≤ pos'.max_swing_high) ∧
    (pos.ptype = PosType.short → pos'.max_swing_high ≤ pos.max_swing_high) := by
  induction ticks generalizing st pos with
  | nil =>
    rw [check_ticks] at h'
    rw [h] at h'
    obtain rfl := (Option.some.injEq _ _).mp h'.symm
    exact ⟨rfl, fun _ => le_refl _, fun _ => le_refl _⟩
  | cons t rest ih =>
    obtain ⟨p, d⟩ := t
    rw [check_ticks] at h'
    cases hm : lookupPos (check_trailing_stop_loss st symbol p d).positions symbol with
    | none =>
      rw [check_ticks_flat rest _ hm] at h'
      exact absurd h' (by simp)
    | some posm =>
      obtain ⟨hpt1, hlong1, hshort1⟩ := check_step_survivor h hm
      obtain ⟨hpt2, hlong2, hshort2⟩ := ih _ _ hm h'
      refine ⟨hpt2.trans hpt1, fun hl => ?_, fun hs => ?_⟩
      · exact le_trans (hlong1 hl) (hlong2 (hpt1.trans hl))
      · exact le_trans (hshort2 (hpt1.trans hs)) (hshort1 hs)

/-- Closed instance of `extreme_price_ratchet`: one surviving check at
price 107 ratchets the long extreme price from 100 up to 107. -/
theorem extreme_price_ratchet_witness :
    lookupPos ((⟨0, [("A", ⟨PosType.long, 100, 1, 0, 100, 0⟩)], [], 20⟩ :
        SimState).positions) "A" = some ⟨PosType.long, 100, 1, 0, 100, 0⟩ ∧
    lookupPos (check_ticks ⟨0, [("A", ⟨PosType.long, 100, 1, 0, 100, 0⟩)], [], 20⟩
        "A" [(107, 1)]).positions "A" = some ⟨PosType.long, 100, 1, 0, 107, 0⟩ ∧
    ((⟨PosType.long, 100, 1, 0, 107, 0⟩ : Position).ptype
        = (⟨PosType.long, 100, 1, 0, 100, 0⟩ : Position).ptype ∧
     ((⟨PosType.long, 100, 1, 0, 100, 0⟩ : Position).ptype = PosType.long →
        (⟨PosType.long, 100, 1, 0, 100, 0⟩ : Position).max_swing_high
          ≤ (⟨PosType.long, 100, 1, 0, 107, 0⟩ : Position).max_swing_high) ∧
     ((⟨PosType.long, 100, 1, 0, 100, 0⟩ : Position).ptype = PosType.short →
        (⟨PosType.long, 100, 1, 0, 107, 0⟩ : Position).max_swing_high
          ≤ (⟨PosType.long, 100, 1, 0, 100, 0⟩ : Position).max_swing_high)) :=
  ⟨by simp [lookupPos],
   by norm_num [check_ticks, check_trailing_stop_loss, lookupPos, insertPos, erasePos,
     calculate_dynamic_trailing_stop_loss, return_percentage, close_position,
     record_trade],
   extreme_price_ratchet [(107, 1)] ⟨0, [("A", ⟨PosType.long, 100, 1, 0, 100, 0⟩)], [], 20⟩
     "A" ⟨PosType.long, 100, 1, 0, 100, 0⟩ ⟨PosType.long, 100, 1, 0, 107, 0⟩
     (by simp [lookupPos])
     (by norm_num [check_ticks, check_trailing_stop_loss, lookupPos, insertPos, erasePos,
       calculate_dynamic_trailing_stop_loss, return_percentage, close_position,
       record_trade])⟩

/-- C8 (amended): the strategy rules perform no missing-indicator
handling: on a snapshot whose rsi indicator is absent, the
Bollinger+RSI+Volume rule raises an uncaught `KeyError` (there is no
`MissingIndicatorError` and no substitution of HOLD), and
`execute_technical_strategy` propagates the error, aborting the
symbol's evaluation. -/
theorem missing_indicator_uncaught (indicators : Snapshot)
    (h : indicators.rsi = none) :
    isError (bollinger_rsi_volume_strategy indicators) = true ∧
    isError (evaluate_symbol indicators) = true := by
  have h1 : isError (bollinger_rsi_volume_strategy indicators) = true := by
    cases hb : indicators.bollinger <;>
      simp [bollinger_rsi_volume_strategy, getInd, h, hb, isError, Bind.bind,
        Except.bind, Except.instMonad]
  refine ⟨h1, ?_⟩
  cases hval : bollinger_rsi_volume_strategy indicators with
  | ok v => rw [hval] at h1; simp [isError] at h1
  | error e =>
    simp [evaluate_symbol, hval, isError, Bind.bind, Except.bind, Except.instMonad]

/-- Closed instance of `missing_indicator_uncaught` on a snapshot with
every indicator family present except rsi. -/
theorem missing_indicator_uncaught_witness :
    (⟨some ⟨[140], [150], [160]⟩, none, some [10000], some ⟨[1], [0], [0]⟩,
      some [50], some [30], some ⟨[145], [140]⟩, some [1], some [5000],
      some [151], some [150], some ⟨155, [150]⟩, some true, some [50]⟩ :
        Snapshot).rsi = none ∧
    (isError (bollinger_rsi_volume_strategy
        ⟨some ⟨[140], [150], [160]⟩, none, some [10000], some ⟨[1], [0], [0]⟩,
         some [50], some [30], some ⟨[145], [140]⟩, some [1], some [5000],
         some [151], some [150], some ⟨155, [150]⟩, some true, some [50]⟩) = true ∧
     isError (evaluate_symbol
        ⟨some ⟨[140], [150], [160]⟩, none, some [10000], some ⟨[1], [0], [0]⟩,
         some [50], some [30], some ⟨[145], [140]⟩, some [1], some [5000],
         some [151], some [150], some ⟨155, [150]⟩, some true, some [50]⟩) = true) :=
  ⟨rfl,
   missing_indicator_uncaught
     ⟨some ⟨[140], [150], [160]⟩, none, some [10000], some ⟨[1], [0], [0]⟩,
      some [50], some [30], some ⟨[145], [140]⟩, some [1], some [5000],
      some [151], some [150], some ⟨155, [150]⟩, some true, some [50]⟩ rfl⟩

/-- C8 (counterexample): on a concrete snapshot with every indicator
family present except rsi, the Bollinger+RSI+Volume rule evaluates to a
raised `KeyError: rsi` — not to a HOLD vote — and the per-symbol
evaluation of `execute_technical_strategy` aborts with that error
instead of producing a decision mapping. -/
theorem missing_rsi_aborts_symbol_evaluation :
    bollinger_rsi_volume_strategy
        ⟨some ⟨[140], [150], [160]⟩, none, some [10000], some ⟨[1], [0], [0]⟩,
         some [50], some [30], some ⟨[145], [140]⟩, some [1], some [5000],
         some [151], some [150], some ⟨155, [150]⟩, some true, some [50]⟩
      = Except.error "KeyError: rsi" ∧
    evaluate_symbol
        ⟨some ⟨[140], [150], [160]⟩, none, some [10000], some ⟨[1], [0], [0]⟩,
         some [50], some [30], some ⟨[145], [140]⟩, some [1], some [5000],
         some [151], some [150], some ⟨155, [150]⟩, some true, some [50]⟩
      = Except.error "KeyError: rsi" ∧
    (Except.error "KeyError: rsi" ≠ (Except.ok "HOLD" : Except String String)) :=
  ⟨rfl, rfl, by simp⟩

end AutoTrading
